import Mathlib

/-!
Verification of the `lrclibapi` repository (Python package `lrclib`), a
minimal HTTP client wrapper for the lrclib.net lyrics service, against its
natural-language specification.

The repository snapshot contains the README, packaging metadata and docs,
but not the Python modules of the `lrclib` package itself; the client is
therefore modelled from the specification.  The model is a shallow
embedding: the remote network is an oracle function from requests to
outcomes, each client operation is a pure function of the oracle, and the
sequence of requests an operation issues is made observable through an
explicit request log.
-/

set_option autoImplicit false

namespace LrcLib

/-- A minimal JSON value, enough to express the service's response bodies:
objects with string keys, strings, integers, booleans, arrays and null. -/
inductive Json where
  | null
  | bool (b : Bool)
  | num (n : Int)
  | str (s : String)
  | arr (items : List Json)
  | obj (fields : List (String × Json))

/-- Field lookup in a JSON object: the value bound to `key` in the field
list, or `none` when the value is not an object or the key is absent. -/
def Json.getField : Json → String → Option Json
  | .obj fields, key => lookupKey fields key
  | _, _ => none
where
  lookupKey : List (String × Json) → String → Option Json
    | [], _ => none
    | (k, v) :: rest, key => if k = key then some v else lookupKey rest key

/-- Permissive read of an optional string field: the string bound to `key`
when present, and the empty string when the field is absent (or not a
string).  Modelled from the spec: the JSON response decoder "is permissive
about optional fields (absent synced/plain lyrics decode to empty, not
error)". -/
def Json.strOrEmpty (j : Json) (key : String) : String :=
  match j.getField key with
  | some (.str s) => s
  | _ => ""

/-- Modelled from the spec: the lyrics result record returned to callers —
"identifier, track name, artist name, album name, duration (seconds),
flags indicating instrumental status, plain-text lyrics (optional),
time-synchronized lyrics ... (optional)".  Optional lyrics are represented
by the empty string, following the decoder rule that absent fields decode
to empty.  Field names follow the README usage (`result.track_name`,
`lyrics.synced_lyrics`, `results[0].id`). -/
structure LyricsResult where
  id : Int
  track_name : String
  artist_name : String
  album_name : String
  duration : Int
  instrumental : Bool
  plain_lyrics : String
  synced_lyrics : String
deriving DecidableEq, Repr

/-- Modelled from the spec: the JSON response decoder for a single lyrics
record.  The identifying fields (id, track name, artist name, album name,
duration, instrumental flag) are required; the two lyrics fields are
optional and decode to the empty string when absent.  Wire keys are the
camelCase names of the lrclib.net API. -/
def decodeLyricsResult (j : Json) : Option LyricsResult :=
  match j.getField "id", j.getField "trackName", j.getField "artistName",
        j.getField "albumName", j.getField "duration",
        j.getField "instrumental" with
  | some (.num i), some (.str t), some (.str a), some (.str al),
      some (.num d), some (.bool ins) =>
      some { id := i, track_name := t, artist_name := a, album_name := al,
             duration := d, instrumental := ins,
             plain_lyrics := j.strOrEmpty "plainLyrics",
             synced_lyrics := j.strOrEmpty "syncedLyrics" }
  | _, _, _, _, _, _ => none

/-- Modelled from the spec: decoding a search response body, an array of
lyrics records, element by element and in the order the service returned
them. -/
def decodeSearchItems : List Json → Option (List LyricsResult)
  | [] => some []
  | j :: js =>
      match decodeLyricsResult j, decodeSearchItems js with
      | some r, some rs => some (r :: rs)
      | _, _ => none

/-- Modelled from the spec: "Three error kinds suffice: Transport
(connection/timeout failure), NotFound (service responds that no record
matches), ServerError (any other non-success status)." -/
inductive ErrorKind where
  | NotFound
  | Transport
  | ServerError
deriving DecidableEq, Repr

/-- An outbound HTTP GET request: path, query parameters and headers. -/
structure HttpRequest where
  path : String
  params : List (String × String)
  headers : List (String × String)
deriving DecidableEq, Repr

/-- What the network can do with a request: fail at the transport level
(connection/timeout failure), or deliver a response with a status code and
a JSON body. -/
inductive HttpOutcome where
  | transportError
  | response (status : Nat) (body : Json)

/-- The remote service and network, as an oracle from requests to
outcomes. -/
abbrev Net : Type := HttpRequest → HttpOutcome

/-- A network computation that records every request it issues: it takes
the network oracle and the log so far, and returns a value together with
the extended log.  The log makes the claim "exactly one outbound request
per call" stateable. -/
def NetM (α : Type) : Type := Net → List HttpRequest → α × List HttpRequest

/-- Return a value without touching the network. -/
def NetM.pure {α : Type} (a : α) : NetM α := fun _ log => (a, log)

/-- Sequence two network computations; their request logs concatenate. -/
def NetM.bind {α β : Type} (x : NetM α) (f : α → NetM β) : NetM β :=
  fun net log =>
    let p := x net log
    f p.1 net p.2

/-- Issue one GET request: ask the oracle and append the request to the
log. -/
def httpGet (req : HttpRequest) : NetM HttpOutcome :=
  fun net log => (net req, log ++ [req])

/-- Modelled from the spec: the client object — "a configurable outbound
identification string (user-agent) attached to every request, a single
configurable base endpoint". -/
structure LrcLibAPI where
  user_agent : String
  base_url : String
deriving DecidableEq, Repr

/-- The default base endpoint of the remote service. -/
def defaultBaseUrl : String := "https://lrclib.net/api"

/-- Build a request against the client's base endpoint, attaching the
mandatory `User-Agent` header carrying the client's identification
string. -/
def mkRequest (api : LrcLibAPI) (path : String)
    (params : List (String × String)) : HttpRequest :=
  { path := api.base_url ++ path, params := params,
    headers := [("User-Agent", api.user_agent)] }

/-- Is the status code a success (2xx)? -/
def is2xx (status : Nat) : Bool := 200 ≤ status && status < 300

/-- Modelled from the spec: mapping the outcome of a single-record lookup
onto the result or an error kind.  The service reports "no record
matches" with status 404, which becomes NotFound; transport failure
becomes Transport; any other non-success status becomes ServerError; a
success response is decoded into the record.  The spec assumes success
bodies decode (§6); an undecodable success body, outside the spec's
scope, is mapped to ServerError to keep the function total. -/
def classifyGet (out : HttpOutcome) : Except ErrorKind LyricsResult :=
  match out with
  | .transportError => .error .Transport
  | .response status body =>
      if status = 404 then .error .NotFound
      else if is2xx status then
        match decodeLyricsResult body with
        | some r => .ok r
        | none => .error .ServerError
      else .error .ServerError

/-- Modelled from the spec: mapping the outcome of a search call.  A
success response carries an array of records, possibly empty — zero
matches is a successful outcome, never an error; transport failure
becomes Transport; any non-success status becomes ServerError. -/
def classifySearch (out : HttpOutcome) :
    Except ErrorKind (List LyricsResult) :=
  match out with
  | .transportError => .error .Transport
  | .response status body =>
      if is2xx status then
        match body with
        | .arr items =>
            match decodeSearchItems items with
            | some rs => .ok rs
            | none => .error .ServerError
        | _ => .error .ServerError
      else .error .ServerError

/-- The request issued by `get_lyrics`: an exact-match lookup with query
parameters for track, artist, album and duration. -/
def get_lyrics_request (api : LrcLibAPI)
    (track_name artist_name album_name : String) (duration : Int) :
    HttpRequest :=
  mkRequest api "/get"
    [("track_name", track_name), ("artist_name", artist_name),
     ("album_name", album_name), ("duration", toString duration)]

/-- The request issued by `search_lyrics`: track name required, artist and
album names optional. -/
def search_lyrics_request (api : LrcLibAPI) (track_name : String)
    (artist_name album_name : Option String) : HttpRequest :=
  mkRequest api "/search"
    ([("track_name", track_name)] ++
     (match artist_name with | some a => [("artist_name", a)] | none => []) ++
     (match album_name with | some a => [("album_name", a)] | none => []))

/-- The request issued by `get_lyrics_by_id`: a direct lookup by the
service's numeric record identifier. -/
def get_lyrics_by_id_request (api : LrcLibAPI) (lrclib_id : Int) :
    HttpRequest :=
  mkRequest api ("/get/" ++ toString lrclib_id) []

/-- Modelled from the spec: `get_lyrics` in the request log monad — one
outbound call, one response-to-record translation. -/
def get_lyricsM (api : LrcLibAPI)
    (track_name artist_name album_name : String) (duration : Int) :
    NetM (Except ErrorKind LyricsResult) :=
  NetM.bind
    (httpGet (get_lyrics_request api track_name artist_name album_name
      duration))
    (fun out => NetM.pure (classifyGet out))

/-- Modelled from the spec: `search_lyrics` in the request log monad. -/
def search_lyricsM (api : LrcLibAPI) (track_name : String)
    (artist_name album_name : Option String) :
    NetM (Except ErrorKind (List LyricsResult)) :=
  NetM.bind
    (httpGet (search_lyrics_request api track_name artist_name album_name))
    (fun out => NetM.pure (classifySearch out))

/-- Modelled from the spec: `get_lyrics_by_id` in the request log
monad. -/
def get_lyrics_by_idM (api : LrcLibAPI) (lrclib_id : Int) :
    NetM (Except ErrorKind LyricsResult) :=
  NetM.bind (httpGet (get_lyrics_by_id_request api lrclib_id))
    (fun out => NetM.pure (classifyGet out))

/-- The value `get_lyrics` returns against the network `net`. -/
def get_lyrics (api : LrcLibAPI) (net : Net)
    (track_name artist_name album_name : String) (duration : Int) :
    Except ErrorKind LyricsResult :=
  (get_lyricsM api track_name artist_name album_name duration net []).1

/-- The requests one `get_lyrics` call issues against the network
`net`. -/
def get_lyrics_requests (api : LrcLibAPI) (net : Net)
    (track_name artist_name album_name : String) (duration : Int) :
    List HttpRequest :=
  (get_lyricsM api track_name artist_name album_name duration net []).2

/-- The value `search_lyrics` returns against the network `net`. -/
def search_lyrics (api : LrcLibAPI) (net : Net) (track_name : String)
    (artist_name album_name : Option String) :
    Except ErrorKind (List LyricsResult) :=
  (search_lyricsM api track_name artist_name album_name net []).1

/-- The requests one `search_lyrics` call issues against the network
`net`. -/
def search_lyrics_requests (api : LrcLibAPI) (net : Net)
    (track_name : String) (artist_name album_name : Option String) :
    List HttpRequest :=
  (search_lyricsM api track_name artist_name album_name net []).2

/-- The value `get_lyrics_by_id` returns against the network `net`. -/
def get_lyrics_by_id (api : LrcLibAPI) (net : Net) (lrclib_id : Int) :
    Except ErrorKind LyricsResult :=
  (get_lyrics_by_idM api lrclib_id net []).1

/-- The requests one `get_lyrics_by_id` call issues against the network
`net`. -/
def get_lyrics_by_id_requests (api : LrcLibAPI) (net : Net)
    (lrclib_id : Int) : List HttpRequest :=
  (get_lyrics_by_idM api lrclib_id net []).2

/-! Concrete fixtures used to instantiate the claim theorems. -/

/-- A concrete client, as in the README: `LrcLibAPI(user_agent="my-app/0.0.1")`. -/
def apiEx : LrcLibAPI :=
  { user_agent := "my-app/0.0.1", base_url := defaultBaseUrl }

/-- A concrete response record body with both optional lyrics fields
absent. -/
def jrecEx : Json :=
  .obj [("id", .num 5), ("trackName", .str "I Want to Live"),
        ("artistName", .str "Borislav Slavov"),
        ("albumName", .str "BG3"), ("duration", .num 233),
        ("instrumental", .bool false)]

/-- The record `jrecEx` decodes to. -/
def recEx : LyricsResult :=
  { id := 5, track_name := "I Want to Live",
    artist_name := "Borislav Slavov", album_name := "BG3",
    duration := 233, instrumental := false,
    plain_lyrics := "", synced_lyrics := "" }

/-- A concrete service: answers the search with one record, the matching
by-id lookup and the exact-match lookup with that record, and everything
else with a transport failure. -/
def netEx : Net := fun req =>
  if req.path = defaultBaseUrl ++ "/search" then .response 200 (.arr [jrecEx])
  else if req.path = defaultBaseUrl ++ ("/get/" ++ toString (5 : Int)) then
    .response 200 jrecEx
  else if req.path = defaultBaseUrl ++ "/get" then .response 200 jrecEx
  else .transportError

/-- A network with no connectivity: every request fails at the transport
level. -/
def netDown : Net := fun _ => .transportError

/-- A service that reports "no record matches" for every request. -/
def net404 : Net := fun _ => .response 404 .null

/-- A service whose search matches nothing: every reply is a success with
an empty record array. -/
def netEmpty : Net := fun _ => .response 200 (.arr [])

/-! Helper lemmas shared by the claim theorems. -/

theorem get_lyrics_requests_eq (api : LrcLibAPI) (net : Net)
    (t a al : String) (d : Int) :
    get_lyrics_requests api net t a al d =
      [get_lyrics_request api t a al d] := rfl

theorem search_lyrics_requests_eq (api : LrcLibAPI) (net : Net)
    (t : String) (an alo : Option String) :
    search_lyrics_requests api net t an alo =
      [search_lyrics_request api t an alo] := rfl

theorem get_lyrics_by_id_requests_eq (api : LrcLibAPI) (net : Net)
    (lid : Int) :
    get_lyrics_by_id_requests api net lid =
      [get_lyrics_by_id_request api lid] := rfl

theorem get_lyrics_eq_classify (api : LrcLibAPI) (net : Net)
    (t a al : String) (d : Int) :
    get_lyrics api net t a al d =
      classifyGet (net (get_lyrics_request api t a al d)) := rfl

theorem search_lyrics_eq_classify (api : LrcLibAPI) (net : Net)
    (t : String) (an alo : Option String) :
    search_lyrics api net t an alo =
      classifySearch (net (search_lyrics_request api t an alo)) := rfl

theorem get_lyrics_by_id_eq_classify (api : LrcLibAPI) (net : Net)
    (lid : Int) :
    get_lyrics_by_id api net lid =
      classifyGet (net (get_lyrics_by_id_request api lid)) := rfl

theorem classifyGet_transport :
    classifyGet .transportError = .error .Transport := rfl

theorem classifyGet_notFound (body : Json) :
    classifyGet (.response 404 body) = .error .NotFound := rfl

theorem is2xx_404 : is2xx 404 = false := rfl

theorem classifyGet_serverError (status : Nat) (body : Json)
    (h404 : status ≠ 404) (h2 : is2xx status = false) :
    classifyGet (.response status body) = .error .ServerError := by
  simp [classifyGet, h404, h2]

theorem classifyGet_success (status : Nat) (body : Json) (r : LyricsResult)
    (h2 : is2xx status = true) (hdec : decodeLyricsResult body = some r) :
    classifyGet (.response status body) = .ok r := by
  have h404 : status ≠ 404 := by
    intro hs
    rw [hs] at h2
    exact absurd h2 (by decide)
  simp [classifyGet, h404, h2, hdec]

theorem classifyGet_ok_inv (out : HttpOutcome) (r : LyricsResult)
    (h : classifyGet out = .ok r) :
    ∃ status body, out = .response status body ∧ is2xx status = true ∧
      decodeLyricsResult body = some r := by
  cases out with
  | transportError => simp [classifyGet] at h
  | response status body =>
      simp only [classifyGet] at h
      split at h
      · exact absurd h (by simp)
      · split at h
        · rename_i h2
          split at h
          · rename_i r' heq
            refine ⟨status, body, rfl, h2, ?_⟩
            rw [heq]
            injection h with h'
            rw [h']
          · exact absurd h (by simp)
        · exact absurd h (by simp)

theorem classifySearch_error_kinds (out : HttpOutcome) (e : ErrorKind)
    (h : classifySearch out = .error e) :
    e = .Transport ∨ e = .ServerError := by
  cases out with
  | transportError =>
      simp only [classifySearch] at h
      injection h with h'
      exact Or.inl h'.symm
  | response status body =>
      simp only [classifySearch] at h
      split at h
      · split at h
        · split at h
          · exact absurd h (by simp)
          · injection h with h'
            exact Or.inr h'.symm
        · injection h with h'
          exact Or.inr h'.symm
      · injection h with h'
        exact Or.inr h'.symm

theorem classifySearch_ok_inv (out : HttpOutcome) (rs : List LyricsResult)
    (h : classifySearch out = .ok rs) :
    ∃ status items, out = .response status (.arr items) ∧
      is2xx status = true ∧ decodeSearchItems items = some rs := by
  cases out with
  | transportError => simp [classifySearch] at h
  | response status body =>
      simp only [classifySearch] at h
      split at h
      · rename_i h2
        split at h
        · rename_i items
          split at h
          · rename_i rs' heq
            refine ⟨status, items, rfl, h2, ?_⟩
            rw [heq]
            injection h with h'
            rw [h']
          · exact absurd h (by simp)
        · exact absurd h (by simp)
      · exact absurd h (by simp)

theorem decodeLyricsResult_id (j : Json) (r : LyricsResult)
    (h : decodeLyricsResult j = some r) :
    j.getField "id" = some (.num r.id) := by
  unfold decodeLyricsResult at h
  split at h
  · rename_i i t a al d ins hi ht ha hal hd hins
    injection h with h'
    rw [hi, ← h']
  · exact absurd h (by simp)

theorem decodeSearchItems_length (items : List Json) :
    ∀ rs : List LyricsResult, decodeSearchItems items = some rs →
      rs.length = items.length := by
  induction items with
  | nil =>
      intro rs h
      simp only [decodeSearchItems] at h
      injection h with h'
      rw [← h']
      rfl
  | cons j js ih =>
      intro rs h
      simp only [decodeSearchItems] at h
      cases hj : decodeLyricsResult j with
      | none => rw [hj] at h; exact absurd h (by simp)
      | some r =>
          cases hjs : decodeSearchItems js with
          | none => rw [hj, hjs] at h; exact absurd h (by simp)
          | some rs' =>
              rw [hj, hjs] at h
              simp only [] at h
              injection h with h'
              rw [← h']
              simp [ih rs' hjs]

theorem decodeSearchItems_getElem (items : List Json) :
    ∀ rs : List LyricsResult, decodeSearchItems items = some rs →
      ∀ k, k < items.length →
        ∃ j r, items[k]? = some j ∧ rs[k]? = some r ∧
          decodeLyricsResult j = some r := by
  induction items with
  | nil =>
      intro rs _ k hk
      exact absurd hk (by simp)
  | cons j js ih =>
      intro rs h k hk
      simp only [decodeSearchItems] at h
      cases hj : decodeLyricsResult j with
      | none => rw [hj] at h; exact absurd h (by simp)
      | some r =>
          cases hjs : decodeSearchItems js with
          | none => rw [hj, hjs] at h; exact absurd h (by simp)
          | some rs' =>
              rw [hj, hjs] at h
              injection h with h'
              cases k with
              | zero => exact ⟨j, r, by simp, by rw [← h']; simp, hj⟩
              | succ k =>
                  have hk' : k < js.length := by
                    simpa using Nat.lt_of_succ_lt_succ hk
                  obtain ⟨j', r', hj', hr', hdec⟩ := ih rs' hjs k hk'
                  exact ⟨j', r', by simpa using hj', by rw [← h']; simpa using hr', hdec⟩

/-! Claim theorems. -/

/-- C1: `get_lyrics` error taxonomy — a transport failure yields the
Transport kind, a 404 "no match" reply yields the NotFound kind, any
other non-2xx reply yields the ServerError kind, a 2xx reply decodes to a
lyrics result, and every error outcome is one of the three kinds. -/
theorem get_lyrics_error_taxonomy (api : LrcLibAPI) (net : Net)
    (t a al : String) (d : Int) :
    (net (get_lyrics_request api t a al d) = .transportError →
      get_lyrics api net t a al d = .error .Transport) ∧
    (∀ body, net (get_lyrics_request api t a al d) = .response 404 body →
      get_lyrics api net t a al d = .error .NotFound) ∧
    (∀ status body,
      net (get_lyrics_request api t a al d) = .response status body →
      status ≠ 404 → is2xx status = false →
      get_lyrics api net t a al d = .error .ServerError) ∧
    (∀ status body r,
      net (get_lyrics_request api t a al d) = .response status body →
      is2xx status = true → decodeLyricsResult body = some r →
      get_lyrics api net t a al d = .ok r) ∧
    (∀ e, get_lyrics api net t a al d = .error e →
      e = .NotFound ∨ e = .Transport ∨ e = .ServerError) := by
  refine ⟨?_, ?_, ?_, ?_, ?_⟩
  · intro h
    rw [get_lyrics_eq_classify, h]
    rfl
  · intro body h
    rw [get_lyrics_eq_classify, h]
    rfl
  · intro status body h h404 h2
    rw [get_lyrics_eq_classify, h]
    exact classifyGet_serverError status body h404 h2
  · intro status body r h h2 hdec
    rw [get_lyrics_eq_classify, h]
    exact classifyGet_success status body r h2 hdec
  · intro e _
    cases e
    · exact Or.inl rfl
    · exact Or.inr (Or.inl rfl)
    · exact Or.inr (Or.inr rfl)

/-- C1 witness: with the network down a concrete `get_lyrics` call fails
with the Transport kind, and against a service answering 200 with a
record body it returns that record. -/
theorem get_lyrics_error_taxonomy_witness :
    get_lyrics apiEx netDown "x" "y" "z" 233 = .error .Transport ∧
    get_lyrics apiEx netEx "x" "y" "z" 233 = .ok recEx :=
  ⟨(get_lyrics_error_taxonomy apiEx netDown "x" "y" "z" 233).1 rfl,
   (get_lyrics_error_taxonomy apiEx netEx "x" "y" "z" 233).2.2.2.1
     200 jrecEx recEx rfl rfl rfl⟩

/-- C2: a search reply with zero matching records is a successful outcome
returning the empty sequence; search fails on transport failure with the
Transport kind, and every search error is Transport or ServerError, never
NotFound. -/
theorem search_lyrics_zero_matches (api : LrcLibAPI) (net : Net)
    (t : String) (an alo : Option String) :
    (∀ status,
      net (search_lyrics_request api t an alo) = .response status (.arr []) →
      is2xx status = true → search_lyrics api net t an alo = .ok []) ∧
    (net (search_lyrics_request api t an alo) = .transportError →
      search_lyrics api net t an alo = .error .Transport) ∧
    (∀ e, search_lyrics api net t an alo = .error e →
      e = .Transport ∨ e = .ServerError) := by
  refine ⟨?_, ?_, ?_⟩
  · intro status h h2
    rw [search_lyrics_eq_classify, h]
    simp [classifySearch, h2, decodeSearchItems]
  · intro h
    rw [search_lyrics_eq_classify, h]
    rfl
  · intro e he
    rw [search_lyrics_eq_classify] at he
    exact classifySearch_error_kinds _ e he

/-- C2 witness: a concrete search against a service with no matching
records returns the empty sequence. -/
theorem search_lyrics_zero_matches_witness :
    search_lyrics apiEx netEmpty "no such track" none none = .ok [] :=
  (search_lyrics_zero_matches apiEx netEmpty "no such track" none none).1
    200 rfl rfl

/-- C3: decoding a record body whose required fields are present succeeds
even when the optional lyrics fields are absent, and each absent lyrics
field decodes to the empty string. -/
theorem decode_missing_lyrics_fields (j : Json) (i d : Int)
    (t a al : String) (ins : Bool)
    (hid : j.getField "id" = some (.num i))
    (ht : j.getField "trackName" = some (.str t))
    (ha : j.getField "artistName" = some (.str a))
    (hal : j.getField "albumName" = some (.str al))
    (hd : j.getField "duration" = some (.num d))
    (hins : j.getField "instrumental" = some (.bool ins)) :
    ∃ r, decodeLyricsResult j = some r ∧
      (j.getField "plainLyrics" = none → r.plain_lyrics = "") ∧
      (j.getField "syncedLyrics" = none → r.synced_lyrics = "") := by
  refine ⟨{ id := i, track_name := t, artist_name := a, album_name := al,
            duration := d, instrumental := ins,
            plain_lyrics := j.strOrEmpty "plainLyrics",
            synced_lyrics := j.strOrEmpty "syncedLyrics" }, ?_, ?_, ?_⟩
  · unfold decodeLyricsResult
    rw [hid, ht, ha, hal, hd, hins]
  · intro hp
    simp [Json.strOrEmpty, hp]
  · intro hs
    simp [Json.strOrEmpty, hs]

/-- C3 witness: the concrete record body lacking both lyrics fields
decodes successfully, with both fields empty. -/
theorem decode_missing_lyrics_fields_witness :
    ∃ r, decodeLyricsResult jrecEx = some r ∧
      (jrecEx.getField "plainLyrics" = none → r.plain_lyrics = "") ∧
      (jrecEx.getField "syncedLyrics" = none → r.synced_lyrics = "") :=
  decode_missing_lyrics_fields jrecEx 5 233 "I Want to Live"
    "Borislav Slavov" "BG3" false rfl rfl rfl rfl rfl rfl

/-- C4: every request issued by any of the three operations carries the
`User-Agent` header set to the client's identification string. -/
theorem user_agent_on_every_request (api : LrcLibAPI) (net : Net)
    (t a al : String) (d lid : Int) (an alo : Option String) :
    (∀ req ∈ get_lyrics_requests api net t a al d,
      ("User-Agent", api.user_agent) ∈ req.headers) ∧
    (∀ req ∈ search_lyrics_requests api net t an alo,
      ("User-Agent", api.user_agent) ∈ req.headers) ∧
    (∀ req ∈ get_lyrics_by_id_requests api net lid,
      ("User-Agent", api.user_agent) ∈ req.headers) := by
  refine ⟨?_, ?_, ?_⟩
  · intro req hreq
    rw [get_lyrics_requests_eq, List.mem_singleton] at hreq
    subst hreq
    simp [get_lyrics_request, mkRequest]
  · intro req hreq
    rw [search_lyrics_requests_eq, List.mem_singleton] at hreq
    subst hreq
    simp [search_lyrics_request, mkRequest]
  · intro req hreq
    rw [get_lyrics_by_id_requests_eq, List.mem_singleton] at hreq
    subst hreq
    simp [get_lyrics_by_id_request, mkRequest]

/-- C4 witness: the request of a concrete `get_lyrics` call carries the
`User-Agent` header with the client's identification string. -/
theorem user_agent_on_every_request_witness :
    ("User-Agent", apiEx.user_agent) ∈
      (get_lyrics_request apiEx "x" "y" "z" 233).headers :=
  (user_agent_on_every_request apiEx netDown "x" "y" "z" 233 7 none none).1
    (get_lyrics_request apiEx "x" "y" "z" 233)
    (by rw [get_lyrics_requests_eq]; exact List.mem_singleton.mpr rfl)

/-- C5: `get_lyrics_by_id` performs a direct lookup by the numeric record
identifier — its request path embeds the identifier — and has the same
error taxonomy as `get_lyrics`: NotFound on a 404 "no record" reply,
Transport on transport failure, ServerError on any other non-2xx reply,
and a decoded record on success. -/
theorem get_lyrics_by_id_error_taxonomy (api : LrcLibAPI) (net : Net)
    (lid : Int) :
    (get_lyrics_by_id_request api lid).path =
      api.base_url ++ ("/get/" ++ toString lid) ∧
    (net (get_lyrics_by_id_request api lid) = .transportError →
      get_lyrics_by_id api net lid = .error .Transport) ∧
    (∀ body, net (get_lyrics_by_id_request api lid) = .response 404 body →
      get_lyrics_by_id api net lid = .error .NotFound) ∧
    (∀ status body,
      net (get_lyrics_by_id_request api lid) = .response status body →
      status ≠ 404 → is2xx status = false →
      get_lyrics_by_id api net lid = .error .ServerError) ∧
    (∀ status body r,
      net (get_lyrics_by_id_request api lid) = .response status body →
      is2xx status = true → decodeLyricsResult body = some r →
      get_lyrics_by_id api net lid = .ok r) := by
  refine ⟨rfl, ?_, ?_, ?_, ?_⟩
  · intro h
    rw [get_lyrics_by_id_eq_classify, h]
    rfl
  · intro body h
    rw [get_lyrics_by_id_eq_classify, h]
    rfl
  · intro status body h h404 h2
    rw [get_lyrics_by_id_eq_classify, h]
    exact classifyGet_serverError status body h404 h2
  · intro status body r h h2 hdec
    rw [get_lyrics_by_id_eq_classify, h]
    exact classifyGet_success status body r h2 hdec

/-- C5 witness: a concrete by-id lookup against a service reporting no
record fails with NotFound, and against a service answering 200 with a
record body it returns that record. -/
theorem get_lyrics_by_id_error_taxonomy_witness :
    get_lyrics_by_id apiEx net404 7 = .error .NotFound ∧
    get_lyrics_by_id apiEx netEx 5 = .ok recEx :=
  ⟨(get_lyrics_by_id_error_taxonomy apiEx net404 7).2.2.1 .null rfl,
   (get_lyrics_by_id_error_taxonomy apiEx netEx 5).2.2.2.2
     200 jrecEx recEx rfl rfl rfl⟩

/-- C6: an identifier taken from an element of a prior successful search,
passed to `get_lyrics_by_id`, yields — when the service answers that
request with a success body carrying that identifier — a result whose
identifier field equals the identifier passed in. -/
theorem get_lyrics_by_id_returns_matching_id (api : LrcLibAPI) (net : Net)
    (t : String) (an alo : Option String) (rs : List LyricsResult)
    (r0 : LyricsResult) (status : Nat) (body : Json) (r : LyricsResult)
    (hsearch : search_lyrics api net t an alo = .ok rs)
    (hmem : r0 ∈ rs)
    (hnet : net (get_lyrics_by_id_request api r0.id) = .response status body)
    (h2 : is2xx status = true)
    (hdec : decodeLyricsResult body = some r)
    (hcoh : body.getField "id" = some (.num r0.id)) :
    get_lyrics_by_id api net r0.id = .ok r ∧ r.id = r0.id := by
  constructor
  · rw [get_lyrics_by_id_eq_classify, hnet]
    exact classifyGet_success status body r h2 hdec
  · have h1 := decodeLyricsResult_id body r hdec
    rw [hcoh] at h1
    injection h1 with h'
    injection h' with h''
    exact h''.symm

/-- C6 witness: against the concrete service, fetching by the identifier
of the first search result returns a record with that same identifier. -/
theorem get_lyrics_by_id_returns_matching_id_witness :
    get_lyrics_by_id apiEx netEx recEx.id = .ok recEx ∧
    recEx.id = recEx.id :=
  get_lyrics_by_id_returns_matching_id apiEx netEx "I Want to Live"
    none none [recEx] recEx 200 jrecEx recEx rfl (List.mem_singleton.mpr rfl)
    rfl rfl rfl rfl

/-- C7: each of the three operations issues exactly one outbound request
per call, and the value it returns is a function of the service's reply
to that one request — no retry, no cached reply, no second round
trip. -/
theorem one_request_per_call (api : LrcLibAPI) (net : Net)
    (t a al : String) (d lid : Int) (an alo : Option String) :
    get_lyrics_requests api net t a al d =
      [get_lyrics_request api t a al d] ∧
    get_lyrics api net t a al d =
      classifyGet (net (get_lyrics_request api t a al d)) ∧
    search_lyrics_requests api net t an alo =
      [search_lyrics_request api t an alo] ∧
    search_lyrics api net t an alo =
      classifySearch (net (search_lyrics_request api t an alo)) ∧
    get_lyrics_by_id_requests api net lid =
      [get_lyrics_by_id_request api lid] ∧
    get_lyrics_by_id api net lid =
      classifyGet (net (get_lyrics_by_id_request api lid)) :=
  ⟨rfl, rfl, rfl, rfl, rfl, rfl⟩

/-- C8: a successful search returns exactly the service's records in the
service's order — the returned sequence has the same length as the
response array (no filtering, no deduplication) and its k-th element is
the decode of the k-th record the service returned (no reordering). -/
theorem search_preserves_service_order (api : LrcLibAPI) (net : Net)
    (t : String) (an alo : Option String) (status : Nat)
    (items : List Json) (rs : List LyricsResult)
    (hnet : net (search_lyrics_request api t an alo) =
      .response status (.arr items))
    (h2 : is2xx status = true)
    (hdec : decodeSearchItems items = some rs) :
    search_lyrics api net t an alo = .ok rs ∧
    rs.length = items.length ∧
    (∀ k, k < items.length →
      ∃ j r, items[k]? = some j ∧ rs[k]? = some r ∧
        decodeLyricsResult j = some r) := by
  refine ⟨?_, decodeSearchItems_length items rs hdec,
    decodeSearchItems_getElem items rs hdec⟩
  rw [search_lyrics_eq_classify, hnet]
  simp [classifySearch, h2, hdec]

/-- C8 witness: the concrete search returns the one service record at the
same position. -/
theorem search_preserves_service_order_witness :
    search_lyrics apiEx netEx "I Want to Live" none none = .ok [recEx] ∧
    [recEx].length = [jrecEx].length ∧
    (∀ k, k < [jrecEx].length →
      ∃ j r, [jrecEx][k]? = some j ∧ [recEx][k]? = some r ∧
        decodeLyricsResult j = some r) :=
  search_preserves_service_order apiEx netEx "I Want to Live" none none
    200 [jrecEx] [recEx] rfl rfl rfl

/-- C9: every record a successful call returns is constructed solely from
the decoded body of the single response the service delivered: the
returned value is exactly the decode of that body. -/
theorem results_solely_from_decoded_response (api : LrcLibAPI) (net : Net)
    (t a al : String) (d lid : Int) (an alo : Option String) :
    (∀ r, get_lyrics api net t a al d = .ok r →
      ∃ status body,
        net (get_lyrics_request api t a al d) = .response status body ∧
        is2xx status = true ∧ decodeLyricsResult body = some r) ∧
    (∀ r, get_lyrics_by_id api net lid = .ok r →
      ∃ status body,
        net (get_lyrics_by_id_request api lid) = .response status body ∧
        is2xx status = true ∧ decodeLyricsResult body = some r) ∧
    (∀ rs, search_lyrics api net t an alo = .ok rs →
      ∃ status items,
        net (search_lyrics_request api t an alo) =
          .response status (.arr items) ∧
        is2xx status = true ∧ decodeSearchItems items = some rs) := by
  refine ⟨?_, ?_, ?_⟩
  · intro r h
    rw [get_lyrics_eq_classify] at h
    exact classifyGet_ok_inv _ r h
  · intro r h
    rw [get_lyrics_by_id_eq_classify] at h
    exact classifyGet_ok_inv _ r h
  · intro rs h
    rw [search_lyrics_eq_classify] at h
    exact classifySearch_ok_inv _ rs h

/-- C9 witness: the record a concrete successful `get_lyrics` call
returns is the decode of the body the service delivered. -/
theorem results_solely_from_decoded_response_witness :
    ∃ status body,
      netEx (get_lyrics_request apiEx "x" "y" "z" 233) =
        .response status body ∧
      is2xx status = true ∧ decodeLyricsResult body = some recEx :=
  (results_solely_from_decoded_response apiEx netEx "x" "y" "z" 233 7
    none none).1 recEx rfl

/-- C10: a successful search yields a sequence supporting positional
indexing and prefix slicing (taking a prefix does not change the elements
at indices inside it), and each element is a record exposing the
identifier, track-name, artist-name and album-name fields, the
identifier being exactly of the type `get_lyrics_by_id` accepts and
embedded in that operation's request path. -/
theorem search_results_indexable (api : LrcLibAPI) (net : Net)
    (t : String) (an alo : Option String) (rs : List LyricsResult)
    (hsearch : search_lyrics api net t an alo = .ok rs)
    (k n : Nat) (hk : k < rs.length) (hkn : k < n) :
    (rs.take n)[k]? = rs[k]? ∧
    ∃ r : LyricsResult, rs[k]? = some r ∧
      r = ⟨r.id, r.track_name, r.artist_name, r.album_name, r.duration,
           r.instrumental, r.plain_lyrics, r.synced_lyrics⟩ ∧
      (get_lyrics_by_id_request api r.id).path =
        api.base_url ++ ("/get/" ++ toString r.id) := by
  refine ⟨by simp [List.getElem?_take, hkn], rs.get ⟨k, hk⟩, ?_, rfl, rfl⟩
  simp [List.getElem?_eq_getElem hk]

/-- C10 witness: the first element of the concrete search result is a
record whose identifier appears in the by-id request path, and a prefix
slice keeps it in place. -/
theorem search_results_indexable_witness :
    ([recEx].take 5)[0]? = [recEx][0]? ∧
    ∃ r : LyricsResult, [recEx][0]? = some r ∧
      r = ⟨r.id, r.track_name, r.artist_name, r.album_name, r.duration,
           r.instrumental, r.plain_lyrics, r.synced_lyrics⟩ ∧
      (get_lyrics_by_id_request apiEx r.id).path =
        apiEx.base_url ++ ("/get/" ++ toString r.id) :=
  search_results_indexable apiEx netEx "I Want to Live" none none [recEx]
    rfl 0 5 (by simp) (by simp)

end LrcLib
